import Mathlib

/-!
Verification development for the pedestrian-crossing-prediction repository.

The embedded code:
* `model/saved_models/CNRS_behavior_model.py` — the decision function
  `pedestrian_behavior_model(weather, height, velocity, distance, use_adjusted=False)`.
  Numeric Python floats are embedded as exact rationals `ℚ`; every comparison in the
  claims is far from the rounding error of binary64, so the idealisation is harmless.
  For claims about non-finite inputs a second embedding `PFloat` with IEEE-754
  special values (`nan`, `inf`, `-inf`) over exact finite rationals is used.
* `model/model_training/train.py` — the parts of the calibration pipeline the claims
  touch: `load_csv_files` / `prepare_data` numeric row processing, and the control
  flow of the per-weather bias loop of `main` built on `compute_bias_for_weather_v2`.
-/

set_option autoImplicit false

namespace CNRS

/-- Global coefficient on `height` (`coefs_mean['height']` in the source). -/
def coefHeight : ℚ := -13614/10000

/-- Global coefficient on `height^2` (`coefs_mean['height^2']`). -/
def coefHeightSq : ℚ := 39/10000

/-- Global coefficient on `velocity` (`coefs_mean['velocity']`). -/
def coefVelocity : ℚ := -540/10000

/-- Global intercept (`coefs_mean['intercept']`). -/
def coefIntercept : ℚ := 1260592/10000

/-- The three per-weather dictionaries `alphas_mean`, `stds`, `mes` of the source have
exactly the keys `clear`, `night`, `rain`; this single table merges them, giving for a
recognized weather the triple `(alpha, std, me)` and `none` otherwise, which is the
membership test `weather not in alphas_mean` of the source. -/
def weatherTable : String → Option (ℚ × ℚ × ℚ)
  | "clear" => some (10385/10000, 1, 4/100)
  | "night" => some (10008/10000, 94/100, 0)
  | "rain"  => some (9681/10000, 72/100, 0)
  | _ => none

/-- `alphas_mean` lookup (perceptual scaling per weather). -/
def alphas_mean (w : String) : Option ℚ := (weatherTable w).map (fun t => t.1)

/-- `stds` lookup (standard deviation per weather). -/
def stds (w : String) : Option ℚ := (weatherTable w).map (fun t => t.2.1)

/-- `mes` lookup (mean error adjustment per weather). -/
def mes (w : String) : Option ℚ := (weatherTable w).map (fun t => t.2.2)

/-- The parenthesised base prediction
`a * height + b * height**2 + c * velocity + intercept` of the source. -/
def base_pred (height velocity : ℚ) : ℚ :=
  coefHeight * height + coefHeightSq * height ^ 2 + coefVelocity * velocity + coefIntercept

/-- `pedestrian_behavior_model` of `CNRS_behavior_model.py` over exact rationals.
An unrecognized weather raises `ValueError`, embedded as `Except.error`; otherwise the
function computes `predicted_time`, `adjusted_time`, clamps a non-positive
`velocity_m_s` to `1e-9`, and compares `real_time` with the selected threshold. -/
def pedestrian_behavior_model (weather : String) (height velocity distance : ℚ)
    (use_adjusted : Bool := false) : Except String Bool :=
  match weatherTable weather with
  | none => .error "Weather not recognized. Choose among clear, night, rain"
  | some (alpha, std, me) =>
    let predicted_time := alpha * base_pred height velocity
    let adjusted_time := predicted_time - 2 * std + me
    let velocity_m_s := velocity * 1000 / 3600
    let velocity_m_s := if velocity_m_s ≤ 0 then 1/1000000000 else velocity_m_s
    let real_time := distance / velocity_m_s
    let threshold := if use_adjusted then adjusted_time else predicted_time
    if real_time < threshold then .ok false else .ok true

/-- The weather-scaled prediction `T_weather = alpha[weather] * T_pred` (the raw
`predicted_time` of the source), defined for recognized weathers. -/
def T_weather (w : String) (height velocity : ℚ) : Option ℚ :=
  (weatherTable w).map (fun t => t.1 * base_pred height velocity)

/-- The adjusted threshold `T_end = T_weather - 2*sigma[weather] + mu[weather]`
(the `adjusted_time` of the source), defined for recognized weathers. -/
def T_end (w : String) (height velocity : ℚ) : Option ℚ :=
  (weatherTable w).map (fun t => t.1 * base_pred height velocity - 2 * t.2.1 + t.2.2)

/-- The real time-to-contact `distance_m / (velocity_kmh * 1000/3600)`. -/
def ttc_real (velocity distance : ℚ) : ℚ :=
  distance / (velocity * 1000 / 3600)

example : base_pred 175 50 = 45517/10000 := by
  norm_num [base_pred, coefHeight, coefHeightSq, coefVelocity, coefIntercept]

example : pedestrian_behavior_model "clear" 175 50 40 = .ok false := by
  norm_num [pedestrian_behavior_model, weatherTable, base_pred, coefHeight, coefHeightSq,
    coefVelocity, coefIntercept]

example : pedestrian_behavior_model "clear" 175 50 40 true = .ok true := by
  norm_num [pedestrian_behavior_model, weatherTable, base_pred, coefHeight, coefHeightSq,
    coefVelocity, coefIntercept]

example : pedestrian_behavior_model "fog" 175 50 40 =
    .error "Weather not recognized. Choose among clear, night, rain" := rfl

example : pedestrian_behavior_model "clear" 175 0 0 = .ok false := by
  norm_num [pedestrian_behavior_model, weatherTable, base_pred, coefHeight, coefHeightSq,
    coefVelocity, coefIntercept]

example : T_end "clear" 175 50 = some (276694045/100000000) := by
  norm_num [T_end, weatherTable, base_pred, coefHeight, coefHeightSq, coefVelocity,
    coefIntercept]

example : ttc_real 50 40 = 72/25 := by norm_num [ttc_real]

/-- Helper: for a recognized weather and positive velocity the default decision
reduces to comparing `real_time` with the raw `predicted_time`, with no clamping. -/
theorem model_eval_pos_raw (w : String) (h v d α σ μ : ℚ)
    (hw : weatherTable w = some (α, σ, μ)) (hv : 0 < v) :
    pedestrian_behavior_model w h v d =
      if d / (v * 1000 / 3600) < α * base_pred h v
      then .ok false else .ok true := by
  have hpos : ¬ v * 1000 / 3600 ≤ 0 := by
    push_neg
    positivity
  simp only [pedestrian_behavior_model, hw, hpos, if_false, Bool.false_eq_true]

/-- Helper: for a recognized weather and positive velocity the adjusted-variant
decision reduces to comparing `real_time` with `adjusted_time`. -/
theorem model_eval_pos_adj (w : String) (h v d α σ μ : ℚ)
    (hw : weatherTable w = some (α, σ, μ)) (hv : 0 < v) :
    pedestrian_behavior_model w h v d true =
      if d / (v * 1000 / 3600) < α * base_pred h v - 2 * σ + μ
      then .ok false else .ok true := by
  have hpos : ¬ v * 1000 / 3600 ≤ 0 := by
    push_neg
    positivity
  simp only [pedestrian_behavior_model, hw, hpos, if_false, if_true]

/-- Helper: for a recognized weather and non-positive velocity the divisor is clamped
to `1e-9`, so the default decision compares `d * 1e9` with `predicted_time`. -/
theorem model_eval_clamped_raw (w : String) (h v d α σ μ : ℚ)
    (hw : weatherTable w = some (α, σ, μ)) (hv : v ≤ 0) :
    pedestrian_behavior_model w h v d =
      if d * 1000000000 < α * base_pred h v
      then .ok false else .ok true := by
  have hneg : v * 1000 / 3600 ≤ 0 := by
    have h1 : v * 1000 ≤ 0 := by nlinarith
    linarith [div_nonpos_of_nonpos_of_nonneg h1 (by norm_num : (0:ℚ) ≤ 3600)]
  have hdiv : d / (1 / 1000000000 : ℚ) = d * 1000000000 := by
    field_simp
  simp only [pedestrian_behavior_model, hw, hneg, if_true, hdiv, Bool.false_eq_true,
    if_false]

/-- Helper: unfolds `T_weather` into the weather-table triple. -/
theorem T_weather_eq (w : String) (h v α σ μ : ℚ) (hw : weatherTable w = some (α, σ, μ)) :
    T_weather w h v = some (α * base_pred h v) := by
  simp [T_weather, hw]

/-- Helper: unfolds `T_end` into the weather-table triple. -/
theorem T_end_eq (w : String) (h v α σ μ : ℚ) (hw : weatherTable w = some (α, σ, μ)) :
    T_end w h v = some (α * base_pred h v - 2 * σ + μ) := by
  simp [T_end, hw]

/-- Helper: `ttc_real` unfolded. -/
theorem ttc_real_def (v d : ℚ) : ttc_real v d = d / (v * 1000 / 3600) := rfl

/-- C1: the claim says the production (default) decision is `true` iff
`ttc_real ≥ T_end`. At `weather=clear, height=175, velocity=50, distance=40` the
default decision is `false` although `ttc_real = 2.88 ≥ T_end ≈ 2.767`, because the
default call compares against the raw `predicted_time`, not the adjusted `T_end`. -/
theorem c1_counterexample :
    pedestrian_behavior_model "clear" 175 50 40 = .ok false ∧
      T_end "clear" 175 50 = some (276694045/100000000) ∧
      (276694045/100000000 : ℚ) ≤ ttc_real 50 40 := by
  refine ⟨?_, ?_, ?_⟩
  · norm_num [pedestrian_behavior_model, weatherTable, base_pred, coefHeight, coefHeightSq,
      coefVelocity, coefIntercept]
  · norm_num [T_end, weatherTable, base_pred, coefHeight, coefHeightSq, coefVelocity,
      coefIntercept]
  · norm_num [ttc_real]

/-- C1 (amended): for every recognized weather, height, velocity `> 0` and distance,
the decision of the explicitly adjusted variant (`use_adjusted = true`) is `true` iff
`ttc_real ≥ T_end`, where `T_end = alpha[w] * base_pred - 2*sigma[w] + mu[w]`; the
default (production) call instead compares against the unadjusted threshold. -/
theorem c1_adjusted_decision_iff (w : String) (h v d tend : ℚ)
    (hw : T_end w h v = some tend) (hv : 0 < v) :
    pedestrian_behavior_model w h v d true = .ok true ↔ tend ≤ ttc_real v d := by
  rcases Option.map_eq_some'.mp hw with ⟨⟨α, σ, μ⟩, ht, rfl⟩
  rw [model_eval_pos_adj w h v d α σ μ ht hv, ttc_real_def]
  split_ifs with hlt
  · simp only [Prod.fst, Prod.snd]
    simp [not_le.mpr hlt]
  · simp only [Prod.fst, Prod.snd]
    simp [not_lt.mp hlt]

/-- C1 witness: the amended theorem applied at
`(clear, 175, 50, 40)` with `use_adjusted = true`: the decision is `true`. -/
theorem c1_adjusted_decision_iff_witness :
    T_end "clear" 175 50 = some (276694045/100000000) ∧ (0:ℚ) < 50 ∧
      pedestrian_behavior_model "clear" 175 50 40 true = .ok true := by
  have hT : T_end "clear" 175 50 = some (276694045/100000000) := by
    norm_num [T_end, weatherTable, base_pred, coefHeight, coefHeightSq, coefVelocity,
      coefIntercept]
  refine ⟨hT, by norm_num, ?_⟩
  exact (c1_adjusted_decision_iff "clear" 175 50 40 (276694045/100000000) hT
    (by norm_num)).mpr (by norm_num [ttc_real])

/-- C2: the claim says velocity `= 0` forces `ttc_real = +∞` and decision `true`
unconditionally for any finite height and distance. The code instead clamps the
divisor to `1e-9`: at `(clear, 175, 0, 0)` the real time is `0`, below the
threshold, so the decision is `false`. -/
theorem c2_counterexample : pedestrian_behavior_model "clear" 175 0 0 = .ok false := by
  norm_num [pedestrian_behavior_model, weatherTable, base_pred, coefHeight, coefHeightSq,
    coefVelocity, coefIntercept]

/-- C2 (amended): for a recognized weather and velocity `≤ 0`, the divisor is clamped
to `1e-9`, so `real_time = distance * 1e9` (finite, not `+∞`) and the default decision
is `true` iff `T_weather ≤ distance * 1e9` — true for ordinary positive distances but
not unconditionally. -/
theorem c2_clamped_decision_iff (w : String) (h v d tw : ℚ)
    (hw : T_weather w h v = some tw) (hv : v ≤ 0) :
    pedestrian_behavior_model w h v d = .ok true ↔ tw ≤ d * 1000000000 := by
  rcases Option.map_eq_some'.mp hw with ⟨⟨α, σ, μ⟩, ht, rfl⟩
  rw [model_eval_clamped_raw w h v d α σ μ ht hv]
  split_ifs with hlt
  · simp [not_le.mpr hlt]
  · simp [not_lt.mp hlt]

/-- C2 witness: the amended theorem applied at `(clear, 175, 0, 5)`:
the clamped decision is `true` because `5e9` exceeds the threshold. -/
theorem c2_clamped_decision_iff_witness :
    T_weather "clear" 175 0 = some (753089045/100000000) ∧ (0:ℚ) ≤ 0 ∧
      pedestrian_behavior_model "clear" 175 0 5 = .ok true := by
  have hT : T_weather "clear" 175 0 = some (753089045/100000000) := by
    norm_num [T_weather, weatherTable, base_pred, coefHeight, coefHeightSq, coefVelocity,
      coefIntercept]
  refine ⟨hT, le_refl 0, ?_⟩
  exact (c2_clamped_decision_iff "clear" 175 0 5 (753089045/100000000) hT
    (le_refl 0)).mpr (by norm_num)

/-- C3: the claim says the default behavior compares against the adjusted `T_end`.
At `(clear, 175, 50, 40)` the default call answers `false` while the explicitly
adjusted variant answers `true`, so the default does not use the adjusted threshold. -/
theorem c3_counterexample :
    pedestrian_behavior_model "clear" 175 50 40 = .ok false ∧
      pedestrian_behavior_model "clear" 175 50 40 true = .ok true := by
  constructor
  · norm_num [pedestrian_behavior_model, weatherTable, base_pred, coefHeight, coefHeightSq,
      coefVelocity, coefIntercept]
  · norm_num [pedestrian_behavior_model, weatherTable, base_pred, coefHeight, coefHeightSq,
      coefVelocity, coefIntercept]

/-- C3 (amended): the default call (`use_adjusted` omitted, hence `false`) compares
`ttc_real` against the unadjusted weather-scaled prediction `T_weather`; the adjusted
`T_end` is used only when a caller explicitly passes `use_adjusted = true`. -/
theorem c3_default_unadjusted_iff (w : String) (h v d tw : ℚ)
    (hw : T_weather w h v = some tw) (hv : 0 < v) :
    pedestrian_behavior_model w h v d = .ok true ↔ tw ≤ ttc_real v d := by
  rcases Option.map_eq_some'.mp hw with ⟨⟨α, σ, μ⟩, ht, rfl⟩
  rw [model_eval_pos_raw w h v d α σ μ ht hv, ttc_real_def]
  split_ifs with hlt
  · simp [not_le.mpr hlt]
  · simp [not_lt.mp hlt]

/-- C3 witness: the amended theorem applied at `(clear, 175, 50, 300)`:
`ttc_real = 21.6` exceeds `T_weather ≈ 4.727`, so the default decision is `true`. -/
theorem c3_default_unadjusted_iff_witness :
    T_weather "clear" 175 50 = some (472694045/100000000) ∧ (0:ℚ) < 50 ∧
      pedestrian_behavior_model "clear" 175 50 300 = .ok true := by
  have hT : T_weather "clear" 175 50 = some (472694045/100000000) := by
    norm_num [T_weather, weatherTable, base_pred, coefHeight, coefHeightSq, coefVelocity,
      coefIntercept]
  refine ⟨hT, by norm_num, ?_⟩
  exact (c3_default_unadjusted_iff "clear" 175 50 300 (472694045/100000000) hT
    (by norm_num)).mpr (by norm_num [ttc_real])

/-- Helper: for a recognized weather and non-positive velocity the adjusted-variant
decision compares `d * 1e9` with `adjusted_time`. -/
theorem model_eval_clamped_adj (w : String) (h v d α σ μ : ℚ)
    (hw : weatherTable w = some (α, σ, μ)) (hv : v ≤ 0) :
    pedestrian_behavior_model w h v d true =
      if d * 1000000000 < α * base_pred h v - 2 * σ + μ
      then .ok false else .ok true := by
  have hneg : v * 1000 / 3600 ≤ 0 := by
    have h1 : v * 1000 ≤ 0 := by nlinarith
    linarith [div_nonpos_of_nonpos_of_nonneg h1 (by norm_num : (0:ℚ) ≤ 3600)]
  have hdiv : d / (1 / 1000000000 : ℚ) = d * 1000000000 := by
    field_simp
  simp only [pedestrian_behavior_model, hw, hneg, if_true, hdiv]

/-- Helper: the weather table holds exactly the keys clear, night, rain. -/
theorem weatherTable_none_iff (w : String) :
    weatherTable w = none ↔ w ∉ (["clear", "night", "rain"] : List String) := by
  unfold weatherTable
  split <;> simp_all

/-- Helper: every triple in the weather table satisfies `0 ≤ mu` and `mu ≤ 2 * sigma`,
so the adjusted threshold never exceeds the raw one. -/
theorem weatherTable_bias_bounds (w : String) (α σ μ : ℚ)
    (hw : weatherTable w = some (α, σ, μ)) : 0 ≤ μ ∧ μ ≤ 2 * σ := by
  unfold weatherTable at hw
  split at hw <;> simp_all
  all_goals rcases hw with ⟨rfl, rfl, rfl⟩
  all_goals norm_num

/-- C4: a weather string outside the trained set {clear, night, rain} makes the
decision function fail with the unknown-weather error for every height, velocity,
distance and variant flag; a trained weather never produces that error. -/
theorem c4_unknown_weather_error (w : String) (h v d : ℚ) (u : Bool) :
    (∃ e, pedestrian_behavior_model w h v d u = .error e) ↔
      w ∉ (["clear", "night", "rain"] : List String) := by
  rw [← weatherTable_none_iff]
  cases hw : weatherTable w with
  | none => simp [pedestrian_behavior_model, hw]
  | some t =>
    obtain ⟨α, σ, μ⟩ := t
    simp only [pedestrian_behavior_model, hw]
    constructor
    · rintro ⟨e, he⟩
      split_ifs at he
    · intro hc
      simp at hc

/-- C6: for fixed weather, height, velocity `> 0` and variant flag, the crossing
decision is monotone in distance: increasing the distance never flips the decision
from `true` to `false`, since the real time-to-contact grows with distance. -/
theorem c6_monotone_in_distance (w : String) (h v d1 d2 : ℚ) (u : Bool)
    (hv : 0 < v) (hd : d1 ≤ d2)
    (h1 : pedestrian_behavior_model w h v d1 u = .ok true) :
    pedestrian_behavior_model w h v d2 u = .ok true := by
  cases hw : weatherTable w with
  | none => simp [pedestrian_behavior_model, hw] at h1
  | some t =>
    obtain ⟨α, σ, μ⟩ := t
    have hV : 0 < v * 1000 / 3600 := by positivity
    have hdiv : d1 / (v * 1000 / 3600) ≤ d2 / (v * 1000 / 3600) := by gcongr
    cases u with
    | false =>
      rw [model_eval_pos_raw w h v d1 α σ μ hw hv] at h1
      rw [model_eval_pos_raw w h v d2 α σ μ hw hv]
      split_ifs at h1 ⊢ with ha hb
      all_goals first
        | rfl
        | (exfalso; linarith [not_lt.mp hb])
        | simp at h1
    | true =>
      rw [model_eval_pos_adj w h v d1 α σ μ hw hv] at h1
      rw [model_eval_pos_adj w h v d2 α σ μ hw hv]
      split_ifs at h1 ⊢ with ha hb
      all_goals first
        | rfl
        | (exfalso; linarith [not_lt.mp hb])
        | simp at h1

/-- C6 witness: the monotonicity theorem applied at `(clear, 175, 50)` between the
distances `200` and `350` with the default variant: both decisions are `true`. -/
theorem c6_monotone_in_distance_witness :
    (0:ℚ) < 50 ∧ (200:ℚ) ≤ 350 ∧
      pedestrian_behavior_model "clear" 175 50 200 = .ok true ∧
      pedestrian_behavior_model "clear" 175 50 350 = .ok true := by
  have h1 : pedestrian_behavior_model "clear" 175 50 200 = .ok true := by
    norm_num [pedestrian_behavior_model, weatherTable, base_pred, coefHeight, coefHeightSq,
      coefVelocity, coefIntercept]
  exact ⟨by norm_num, by norm_num, h1,
    c6_monotone_in_distance "clear" 175 50 200 350 false (by norm_num) (by norm_num) h1⟩

/-- C10: for every weather, height, velocity and distance, if the unadjusted variant
(`use_adjusted = false`) decides `true` then the adjusted variant decides `true` as
well: each trained weather has `2 * sigma ≥ mu ≥ 0`, so the adjusted threshold is at
most the raw one and the adjusted variant is at least as permissive. -/
theorem c10_adjusted_more_permissive (w : String) (h v d : ℚ)
    (h1 : pedestrian_behavior_model w h v d false = .ok true) :
    pedestrian_behavior_model w h v d true = .ok true := by
  cases hw : weatherTable w with
  | none => simp [pedestrian_behavior_model, hw] at h1
  | some t =>
    obtain ⟨α, σ, μ⟩ := t
    obtain ⟨hμ0, hμσ⟩ := weatherTable_bias_bounds w α σ μ hw
    by_cases hv : 0 < v
    · rw [model_eval_pos_raw w h v d α σ μ hw hv] at h1
      rw [model_eval_pos_adj w h v d α σ μ hw hv]
      split_ifs at h1 ⊢ with ha hb
      all_goals first
        | rfl
        | (exfalso; linarith [not_lt.mp hb])
        | simp at h1
    · push_neg at hv
      rw [model_eval_clamped_raw w h v d α σ μ hw hv] at h1
      rw [model_eval_clamped_adj w h v d α σ μ hw hv]
      split_ifs at h1 ⊢ with ha hb
      all_goals first
        | rfl
        | (exfalso; linarith [not_lt.mp hb])
        | simp at h1

/-- C10 witness: the theorem applied at `(night, 180, 30, 100)`: the unadjusted
decision is `true` and so is the adjusted one. -/
theorem c10_adjusted_more_permissive_witness :
    pedestrian_behavior_model "night" 180 30 100 false = .ok true ∧
      pedestrian_behavior_model "night" 180 30 100 true = .ok true := by
  have h1 : pedestrian_behavior_model "night" 180 30 100 false = .ok true := by
    norm_num [pedestrian_behavior_model, weatherTable, base_pred, coefHeight, coefHeightSq,
      coefVelocity, coefIntercept]
  exact ⟨h1, c10_adjusted_more_permissive "night" 180 30 100 h1⟩

/-- C5: the claim's concrete scenario asserts `T_pred ≈ 7.96` and `T_end ≈ 6.31` at
`(clear, 175, 50, 40)`. The code's base prediction there is `4.5517` (below `5`) and
its adjusted threshold is `≈ 2.767` (below `3`), so the claimed intermediate values
are wrong by far more than rounding. -/
theorem c5_counterexample :
    base_pred 175 50 = 45517/10000 ∧ base_pred 175 50 < 5 ∧
      T_end "clear" 175 50 = some (276694045/100000000) ∧
      (276694045/100000000 : ℚ) < 3 := by
  have hb : base_pred 175 50 = 45517/10000 := by
    norm_num [base_pred, coefHeight, coefHeightSq, coefVelocity, coefIntercept]
  refine ⟨hb, by rw [hb]; norm_num, ?_, by norm_num⟩
  norm_num [T_end, weatherTable, base_pred, coefHeight, coefHeightSq, coefVelocity,
    coefIntercept]

/-- C5 (amended): at `(clear, 175, 50, 40)` the code produces `T_pred = 4.5517`,
`T_weather = 4.72694045`, `T_end = 2.76694045`, `ttc_real = 2.88`, and the default
decision is `false` (the pedestrian waits) because `2.88 < 4.72694045`, the comparison
being made against the unadjusted `T_weather`; the adjusted variant would answer
`true` since `2.88 ≥ 2.76694045`. -/
theorem c5_concrete_scenario :
    base_pred 175 50 = 45517/10000 ∧
      T_weather "clear" 175 50 = some (472694045/100000000) ∧
      T_end "clear" 175 50 = some (276694045/100000000) ∧
      ttc_real 50 40 = 72/25 ∧
      pedestrian_behavior_model "clear" 175 50 40 = .ok false ∧
      pedestrian_behavior_model "clear" 175 50 40 true = .ok true := by
  refine ⟨?_, ?_, ?_, ?_, ?_, ?_⟩ <;>
    norm_num [base_pred, T_weather, T_end, ttc_real, pedestrian_behavior_model,
      weatherTable, coefHeight, coefHeightSq, coefVelocity, coefIntercept]

/-- IEEE-754-style float values, for the claims that concern non-finite inputs: a
Python float is `nan`, `inf`, `ninf` (negative infinity) or a finite value, idealised
as an exact rational. Rounding of finite results is irrelevant to those claims, which
depend only on special-value propagation and on comparisons with ample margins; the
special-value rules below follow IEEE 754 (and hence Python) exactly. -/
inductive PFloat where
  | nan : PFloat
  | inf : PFloat
  | ninf : PFloat
  | fin : ℚ → PFloat
deriving DecidableEq

namespace PFloat

/-- IEEE addition: `nan` absorbs, opposite infinities give `nan`. -/
def add : PFloat → PFloat → PFloat
  | nan, _ => nan
  | _, nan => nan
  | inf, ninf => nan
  | ninf, inf => nan
  | inf, _ => inf
  | _, inf => inf
  | ninf, _ => ninf
  | _, ninf => ninf
  | fin a, fin b => fin (a + b)

/-- IEEE negation. -/
def neg : PFloat → PFloat
  | nan => nan
  | inf => ninf
  | ninf => inf
  | fin a => fin (-a)

/-- IEEE subtraction, `x - y = x + (-y)`. -/
def sub (x y : PFloat) : PFloat := x.add y.neg

/-- IEEE multiplication: `nan` absorbs, `inf * 0 = nan`, signs multiply. -/
def mul : PFloat → PFloat → PFloat
  | nan, _ => nan
  | _, nan => nan
  | inf, inf => inf
  | inf, ninf => ninf
  | ninf, inf => ninf
  | ninf, ninf => inf
  | inf, fin b => if b = 0 then nan else if 0 < b then inf else ninf
  | fin a, inf => if a = 0 then nan else if 0 < a then inf else ninf
  | ninf, fin b => if b = 0 then nan else if 0 < b then ninf else inf
  | fin a, ninf => if a = 0 then nan else if 0 < a then ninf else inf
  | fin a, fin b => fin (a * b)

/-- IEEE division: `nan` absorbs, `inf/inf = nan`, a nonzero finite value divided by
zero gives a signed infinity, `0/0 = nan` (the rational zero is the unsigned `+0`). -/
def div : PFloat → PFloat → PFloat
  | nan, _ => nan
  | _, nan => nan
  | inf, inf => nan
  | inf, ninf => nan
  | ninf, inf => nan
  | ninf, ninf => nan
  | inf, fin b => if 0 ≤ b then inf else ninf
  | ninf, fin b => if 0 ≤ b then ninf else inf
  | fin _, inf => fin 0
  | fin _, ninf => fin 0
  | fin a, fin b =>
      if b = 0 then (if a = 0 then nan else if 0 < a then inf else ninf)
      else fin (a / b)

/-- IEEE strict less-than: any comparison involving `nan` is `false`. -/
def blt : PFloat → PFloat → Bool
  | nan, _ => false
  | _, nan => false
  | ninf, ninf => false
  | ninf, _ => true
  | _, ninf => false
  | inf, _ => false
  | fin _, inf => true
  | fin a, fin b => decide (a < b)

/-- IEEE less-or-equal: any comparison involving `nan` is `false`. -/
def ble : PFloat → PFloat → Bool
  | nan, _ => false
  | _, nan => false
  | ninf, _ => true
  | _, ninf => false
  | inf, inf => true
  | inf, fin _ => false
  | fin _, inf => true
  | fin a, fin b => decide (a ≤ b)

end PFloat

/-- `pedestrian_behavior_model` of `CNRS_behavior_model.py` over IEEE-style float
values, mirroring the Python float semantics of every operation the function performs
(the sums are associated to the left as Python evaluates them). The only `raise` in the
function is the unknown-weather check; there is no finiteness validation, so non-finite
inputs flow through the arithmetic. -/
def pedestrian_behavior_model_f (weather : String) (height velocity distance : PFloat)
    (use_adjusted : Bool := false) : Except String Bool :=
  match weatherTable weather with
  | none => .error "Weather not recognized. Choose among clear, night, rain"
  | some (alpha, std, me) =>
    let s1 := (PFloat.fin coefHeight).mul height
    let s2 := s1.add ((PFloat.fin coefHeightSq).mul (height.mul height))
    let s3 := s2.add ((PFloat.fin coefVelocity).mul velocity)
    let base := s3.add (PFloat.fin coefIntercept)
    let predicted_time := (PFloat.fin alpha).mul base
    let adjusted_time := (predicted_time.sub ((PFloat.fin 2).mul (PFloat.fin std))).add
      (PFloat.fin me)
    let velocity_m_s := (velocity.mul (PFloat.fin 1000)).div (PFloat.fin 3600)
    let velocity_m_s := if velocity_m_s.ble (PFloat.fin 0) then PFloat.fin (1/1000000000)
      else velocity_m_s
    let real_time := distance.div velocity_m_s
    let threshold := if use_adjusted then adjusted_time else predicted_time
    if real_time.blt threshold then .ok false else .ok true

/-- C7: the claim says a non-finite height, velocity or distance makes the call raise
an invalid-input error. The code has no finiteness check: with `height = NaN` the
threshold becomes `NaN`, the comparison `real_time < NaN` is `false`, and the call
returns the decision `true` instead of raising. -/
theorem c7_counterexample :
    pedestrian_behavior_model_f "clear" .nan (.fin 50) (.fin 40) = .ok true := by
  norm_num [pedestrian_behavior_model_f, weatherTable, PFloat.mul, PFloat.add,
    PFloat.sub, PFloat.neg, PFloat.div, PFloat.blt, PFloat.ble]

/-- C7 (amended): the decision function performs no finiteness validation — for every
weather and all float inputs, finite or not, the only error it can surface is the
unknown-weather error; non-finite inputs produce an ordinary boolean decision. -/
theorem c7_only_unknown_weather_error (w : String) (h v d : PFloat) (u : Bool) :
    (∃ e, pedestrian_behavior_model_f w h v d u = .error e) ↔
      w ∉ (["clear", "night", "rain"] : List String) := by
  rw [← weatherTable_none_iff]
  cases hw : weatherTable w with
  | none => simp [pedestrian_behavior_model_f, hw]
  | some t =>
    obtain ⟨α, σ, μ⟩ := t
    simp only [pedestrian_behavior_model_f, hw]
    constructor
    · rintro ⟨e, he⟩
      split_ifs at he
    · intro hc
      simp at hc

/-- One raw CSV row of `data/processed/` after `load_csv_files` stamped the weather
column from the file name: the columns the numeric pipeline of `train.py` uses. -/
structure RawRow where
  height : ℚ
  velocity_exp2 : ℚ
  avg_safety_distance : ℚ
  weather : String
deriving DecidableEq

/-- A row after `load_csv_files` computed `velocity_ms` and `avg_safety_time`. The
division is the pandas float division, so a zero divisor yields `inf`, `-inf` or
`nan` rather than raising — hence the `PFloat` codomain for `avg_safety_time`. -/
structure LoadedRow where
  height : ℚ
  velocity_exp2 : ℚ
  avg_safety_distance : ℚ
  weather : String
  velocity_ms : ℚ
  avg_safety_time : PFloat
deriving DecidableEq

/-- A row after `prepare_data` added the squared-height feature column. -/
structure FeatureRow where
  height : ℚ
  velocity_exp2 : ℚ
  avg_safety_distance : ℚ
  weather : String
  velocity_ms : ℚ
  avg_safety_time : PFloat
  heightSq : ℚ
deriving DecidableEq

/-- The numeric body of `load_csv_files` on the concatenated rows:
`velocity_ms = velocity_exp2 * (5/18)`, then
`avg_safety_time = avg_safety_distance / velocity_ms` (pandas float semantics),
then `dropna()`, which removes exactly the rows whose computed value is `NaN`.
There is no velocity filter: the division is performed for every row, zero divisor
included. -/
def load_csv_rows (rows : List RawRow) : List LoadedRow :=
  (rows.map (fun r =>
    { height := r.height
      velocity_exp2 := r.velocity_exp2
      avg_safety_distance := r.avg_safety_distance
      weather := r.weather
      velocity_ms := r.velocity_exp2 * (5/18)
      avg_safety_time :=
        (PFloat.fin r.avg_safety_distance).div
          (PFloat.fin (r.velocity_exp2 * (5/18))) })).filter
    (fun r => decide (r.avg_safety_time ≠ PFloat.nan))

/-- `prepare_data(datas, limit)` of `train.py`: when a limit is given, keep the rows
with `avg_safety_time < limit` (a pandas float comparison, which is `false` for `NaN`
and `+inf`), then add the `height^2` column — the feature-derivation step. -/
def prepare_data (datas : List LoadedRow) (limit : Option ℚ) : List FeatureRow :=
  let df : List LoadedRow := match limit with
    | some l => datas.filter (fun r => r.avg_safety_time.blt (PFloat.fin l))
    | none => datas
  df.map (fun (r : LoadedRow) =>
    { height := r.height
      velocity_exp2 := r.velocity_exp2
      avg_safety_distance := r.avg_safety_distance
      weather := r.weather
      velocity_ms := r.velocity_ms
      avg_safety_time := r.avg_safety_time
      heightSq := r.height ^ 2 })

/-- A raw row with negative velocity: `velocity_ms = -5`, `avg_safety_time = -2`. -/
def rowNegVel : RawRow :=
  { height := 170, velocity_exp2 := -18, avg_safety_distance := 10, weather := "clear" }

/-- C9: the claim says every row that reaches feature derivation has
`velocity_kmh > 0`. A row with `velocity_exp2 = -18` gets `avg_safety_time = -2`,
survives both `dropna` and the `< 7` outlier filter, and reaches the `height^2`
derivation step with a non-positive velocity. -/
theorem c9_counterexample :
    (prepare_data (load_csv_rows [rowNegVel]) (some 7)).map
        (fun r => (r.velocity_exp2, r.heightSq)) = [(-18, 28900)] := by
  norm_num [prepare_data, load_csv_rows, rowNegVel, PFloat.div, PFloat.blt,
    List.filter, List.map]

/-- C9 (amended): no velocity filter exists and `avg_safety_time` is computed before
any dropping — with a zero divisor the pandas division returns `inf` or `NaN` instead
of raising. Provided every row has a positive `avg_safety_distance`, rows with zero
velocity still never reach feature derivation (their `avg_safety_time` is `+inf`,
excluded by the `< 7` outlier filter), but rows with negative velocity do reach it. -/
theorem c9_zero_velocity_never_reaches_features (rows : List RawRow)
    (hpos : rows.all (fun r => decide (0 < r.avg_safety_distance)) = true) :
    (prepare_data (load_csv_rows rows) (some 7)).all
      (fun r => decide (r.velocity_exp2 ≠ 0)) = true := by
  rw [List.all_eq_true] at hpos ⊢
  intro fr hfr
  simp only [prepare_data, List.mem_map, List.mem_filter] at hfr
  obtain ⟨lr, ⟨hlr_mem, hlt⟩, rfl⟩ := hfr
  simp only [load_csv_rows, List.mem_filter, List.mem_map] at hlr_mem
  obtain ⟨⟨raw, hraw_mem, rfl⟩, hnn⟩ := hlr_mem
  dsimp only at hlt ⊢
  rw [decide_eq_true_eq]
  intro hzero
  have hd := hpos raw hraw_mem
  rw [decide_eq_true_eq] at hd
  rw [hzero] at hlt
  norm_num [PFloat.div, PFloat.blt, hd, hd.ne'] at hlt

/-- A raw row with an ordinary positive velocity. -/
def rowOkVel : RawRow :=
  { height := 170, velocity_exp2 := 20, avg_safety_distance := 10, weather := "clear" }

/-- A raw row with zero velocity and a positive safety distance, whose
`avg_safety_time` is `+inf` under pandas division. -/
def rowZeroVel : RawRow :=
  { height := 160, velocity_exp2 := 0, avg_safety_distance := 5, weather := "rain" }

/-- The two-row dataset used to witness the amended C9. -/
def rowsC9 : List RawRow := [rowOkVel, rowZeroVel]

/-- C9 witness: the amended theorem applied to a concrete two-row dataset — a normal
row and a zero-velocity row; only the normal row reaches feature derivation. -/
theorem c9_zero_velocity_never_reaches_features_witness :
    rowsC9.all (fun r => decide (0 < r.avg_safety_distance)) = true ∧
      (prepare_data (load_csv_rows rowsC9) (some 7)).all
        (fun r => decide (r.velocity_exp2 ≠ 0)) = true := by
  have hpos : rowsC9.all (fun r => decide (0 < r.avg_safety_distance)) = true := by
    norm_num [rowsC9, rowOkVel, rowZeroVel, List.all]
  exact ⟨hpos, c9_zero_velocity_never_reaches_features rowsC9 hpos⟩

/-- The number of test samples sklearn's `train_test_split` allocates for a
fractional `test_size = num/den`: `ceil(n * test_size)`; the train side receives the
remaining `n - ceil(n * test_size)` samples. -/
def testCount (n num den : ℕ) : ℕ := (n * num + den - 1) / den

/-- The message of the `ValueError` sklearn raises when a requested split would leave
the train or test side empty. -/
def splitErrMsg : String := "ValueError: train_test_split with an empty train or test set"

/-- The control flow of `compute_bias_for_weather_v2(datas, weather)` of `train.py`:
restrict to the weather's rows (`select_predictors_v2`), run the 70/30
`train_test_split` — which raises `ValueError` whenever the resulting train or test
side would be empty — then `train_and_evaluate_model_v2`, whose internal iterations
split the train rows again with `test_size = 0.2`, raising likewise. The averaged
`LinearRegression` coefficients and the residual statistics depend on the library's
seeded RNG and are abstracted by the `fit` parameter; the split-size validation and
the absence of any guard or handler — all that the degenerate-category behavior
depends on — are concrete. -/
def compute_bias_for_weather_v2 (fit : List FeatureRow → ℚ × ℚ)
    (datas : List FeatureRow) (weather : String) : Except String (ℚ × ℚ) :=
  let rows := datas.filter (fun r => r.weather == weather)
  let n := rows.length
  let nTest := testCount n 3 10
  if nTest = 0 ∨ nTest = n then
    .error splitErrMsg
  else
    let nTrain := n - nTest
    let nTest2 := testCount nTrain 2 10
    if nTest2 = 0 ∨ nTest2 = nTrain then
      .error splitErrMsg
    else .ok (fit rows)

/-- The per-weather bias loop of `main` in `train.py`
(`for w in ["clear", "rain", "night"]`): each iteration calls
`compute_bias_for_weather_v2` unconditionally; an exception in any iteration
propagates and aborts the whole run — there is no handler and no omission path. -/
def bias_v2_loop (fit : List FeatureRow → ℚ × ℚ) (datas : List FeatureRow) :
    Except String (List (String × ℚ × ℚ)) :=
  match compute_bias_for_weather_v2 fit datas "clear" with
  | .error e => .error e
  | .ok bClear =>
    match compute_bias_for_weather_v2 fit datas "rain" with
    | .error e => .error e
    | .ok bRain =>
      match compute_bias_for_weather_v2 fit datas "night" with
      | .error e => .error e
      | .ok bNight => .ok [("clear", bClear), ("rain", bRain), ("night", bNight)]

/-- A trivial concrete stand-in for the abstracted regression fit. -/
def fit0 : List FeatureRow → ℚ × ℚ := fun _ => (0, 0)

/-- A feature row with the given height and weather and unremarkable other values. -/
def mkFeatureRow (h : ℚ) (w : String) : FeatureRow :=
  { height := h, velocity_exp2 := 20, avg_safety_distance := 10, weather := w,
    velocity_ms := 50/9, avg_safety_time := PFloat.fin (9/5), heightSq := h ^ 2 }

/-- A dataset with three clear rows and three night rows but no rain rows. -/
def sampleMissingRain : List FeatureRow :=
  [mkFeatureRow 170 "clear", mkFeatureRow 171 "clear", mkFeatureRow 172 "clear",
    mkFeatureRow 165 "night", mkFeatureRow 166 "night", mkFeatureRow 167 "night"]

/-- Helper: a weather category with fewer than 3 rows makes
`compute_bias_for_weather_v2` raise: with `n ∈ {0, 1, 2}` either the 70/30 split or
the nested 80/20 split has an empty side. -/
theorem compute_bias_error_of_few (fit : List FeatureRow → ℚ × ℚ)
    (datas : List FeatureRow) (w : String)
    (hfew : (datas.filter (fun r => r.weather == w)).length < 3) :
    compute_bias_for_weather_v2 fit datas w =
      .error splitErrMsg := by
  simp only [compute_bias_for_weather_v2]
  generalize hn : (datas.filter (fun r => r.weather == w)).length = n at hfew ⊢
  interval_cases n <;> norm_num [testCount]

/-- C8: the claim says calibration omits a weather category that has no rows and
continues for the others. On a dataset with clear and night rows but no rain rows,
the bias loop does not produce a coefficient set omitting rain: it aborts with the
`ValueError` raised by splitting the empty rain subset. -/
theorem c8_counterexample :
    bias_v2_loop fit0 sampleMissingRain =
      .error splitErrMsg := by
  have hclear : compute_bias_for_weather_v2 fit0 sampleMissingRain "clear" =
      .ok (0, 0) := rfl
  have hrain : compute_bias_for_weather_v2 fit0 sampleMissingRain "rain" =
      .error splitErrMsg := rfl
  simp [bias_v2_loop, hclear, hrain]

/-- C8 (amended): calibration does not omit a degenerate weather category. Whenever
one of clear, rain or night has fewer than 3 rows in the prepared dataset, the bias
loop of `main` raises (for every abstracted fit) and the run aborts, instead of
skipping that category and continuing with the others. -/
theorem c8_degenerate_weather_aborts (fit : List FeatureRow → ℚ × ℚ)
    (datas : List FeatureRow) (w : String)
    (hw : w ∈ (["clear", "rain", "night"] : List String))
    (hfew : (datas.filter (fun r => r.weather == w)).length < 3) :
    ∃ e, bias_v2_loop fit datas = .error e := by
  simp only [List.mem_cons, List.mem_singleton, List.not_mem_nil, or_false] at hw
  rcases hw with rfl | rfl | rfl
  · exact ⟨splitErrMsg, by
      simp [bias_v2_loop, compute_bias_error_of_few fit datas "clear" hfew]⟩
  · cases hclear : compute_bias_for_weather_v2 fit datas "clear" with
    | error e => exact ⟨e, by simp [bias_v2_loop, hclear]⟩
    | ok b =>
      exact ⟨splitErrMsg, by
        simp [bias_v2_loop, hclear, compute_bias_error_of_few fit datas "rain" hfew]⟩
  · cases hclear : compute_bias_for_weather_v2 fit datas "clear" with
    | error e => exact ⟨e, by simp [bias_v2_loop, hclear]⟩
    | ok b =>
      cases hrain : compute_bias_for_weather_v2 fit datas "rain" with
      | error e => exact ⟨e, by simp [bias_v2_loop, hclear, hrain]⟩
      | ok b2 =>
        exact ⟨splitErrMsg, by
          simp [bias_v2_loop, hclear, hrain,
            compute_bias_error_of_few fit datas "night" hfew]⟩

/-- C8 witness: the amended theorem applied to the concrete dataset with no rain
rows: the loop aborts with an error. -/
theorem c8_degenerate_weather_aborts_witness :
    ("rain" ∈ (["clear", "rain", "night"] : List String)) ∧
      (sampleMissingRain.filter (fun r => r.weather == "rain")).length < 3 ∧
      ∃ e, bias_v2_loop fit0 sampleMissingRain = .error e := by
  refine ⟨by simp, by decide, ?_⟩
  exact c8_degenerate_weather_aborts fit0 sampleMissingRain "rain" (by simp) (by decide)

end CNRS
